import Mathlib

/-!
Shallow embedding of the tesla-address repository's core
(`src/streamlit_app.py` and `src/tesla_client.py`).

Provider responses and Python values are modelled by `JsonVal`; the
session token store (`st.session_state.user_tokens`) is an association
list from string keys to `JsonVal`; Python exceptions are modelled by
`PyExc` carrying the text that `str(e)` would produce; every fallible
Python expression is translated to `Except PyExc _`.
-/

/-- A Python exception, identified by the string `str(e)` yields. -/
structure PyExc where
  msg : String
deriving DecidableEq

/-- Parsed JSON / plain Python values as they appear in this program. -/
inductive JsonVal where
  | null : JsonVal
  | bool : Bool → JsonVal
  | int : Int → JsonVal
  | str : String → JsonVal
  | arr : List JsonVal → JsonVal
  | obj : List (String × JsonVal) → JsonVal

/-- A single-quote character as a string (used in `KeyError` and `repr` rendering). -/
def pyQuote : String := String.singleton (Char.ofNat 39)

/-- First-match lookup in a Python dict modelled as an association list. -/
def fieldsLookup (k : String) : List (String × JsonVal) → Option JsonVal
  | [] => none
  | (k2, v) :: rest => if k2 = k then some v else fieldsLookup k rest

/-- Dict assignment `d[k] = v`: replace the first binding of `k`, or append a new one. -/
def fieldsInsert (k : String) (v : JsonVal) : List (String × JsonVal) → List (String × JsonVal)
  | [] => [(k, v)]
  | (k2, v2) :: rest => if k2 = k then (k2, v) :: rest else (k2, v2) :: fieldsInsert k v rest

/-- Dict deletion `del d[k]`: remove every binding of `k`. -/
def fieldsErase (k : String) : List (String × JsonVal) → List (String × JsonVal)
  | [] => []
  | (k2, v2) :: rest => if k2 = k then fieldsErase k rest else (k2, v2) :: fieldsErase k rest

/-- The `st.session_state.user_tokens` dictionary. -/
abbrev Store := List (String × JsonVal)

/-- Python subscript `v[k]` for a string key: `KeyError` (whose `str` is
the quoted key) when the key is absent, `TypeError` when `v` is not a dict. -/
def pyGetItem (v : JsonVal) (k : String) : Except PyExc JsonVal :=
  match v with
  | JsonVal.obj fs =>
    match fieldsLookup k fs with
    | some x => Except.ok x
    | none => Except.error ⟨pyQuote ++ k ++ pyQuote⟩
  | _ => Except.error ⟨"TypeError: value is not subscriptable by string"⟩

/-- Python subscript `v[i]` for an integer index on a list. -/
def pyIndex (v : JsonVal) (i : Nat) : Except PyExc JsonVal :=
  match v with
  | JsonVal.arr xs =>
    match xs.get? i with
    | some x => Except.ok x
    | none => Except.error ⟨"list index out of range"⟩
  | _ => Except.error ⟨"TypeError: value is not indexable"⟩

/-- Python `v > 0` (used on the vehicle-list `count` field). -/
def pyGtZero (v : JsonVal) : Except PyExc Bool :=
  match v with
  | JsonVal.int n => Except.ok (decide (0 < n))
  | JsonVal.bool b => Except.ok b
  | _ => Except.error ⟨"TypeError: not supported between instances"⟩

/-- Python `k in v` on a dict (key membership). -/
def pyContains (v : JsonVal) (k : String) : Except PyExc Bool :=
  match v with
  | JsonVal.obj fs => Except.ok (fieldsLookup k fs).isSome
  | _ => Except.error ⟨"TypeError: argument is not a dict"⟩

mutual

/-- Python `repr` of a parsed-JSON value (what an f-string interpolates
for a dict), e.g. `\x7b'response': \x7b'result': True\x7d\x7d`. -/
def pyRepr : JsonVal → String
  | JsonVal.null => "None"
  | JsonVal.bool true => "True"
  | JsonVal.bool false => "False"
  | JsonVal.int n => toString n
  | JsonVal.str s => pyQuote ++ s ++ pyQuote
  | JsonVal.arr xs => "[" ++ pyReprList xs ++ "]"
  | JsonVal.obj fs => "\x7b" ++ pyReprFields fs ++ "\x7d"

def pyReprList : List JsonVal → String
  | [] => ""
  | [x] => pyRepr x
  | x :: rest => pyRepr x ++ ", " ++ pyReprList rest

def pyReprFields : List (String × JsonVal) → String
  | [] => ""
  | [(k, v)] => pyQuote ++ k ++ pyQuote ++ ": " ++ pyRepr v
  | (k, v) :: rest => pyQuote ++ k ++ pyQuote ++ ": " ++ pyRepr v ++ ", " ++ pyReprFields rest

end

/-- Python `str(v)`: strings print without quotes, containers via `repr`. -/
def pyStr (v : JsonVal) : String :=
  match v with
  | JsonVal.str s => s
  | _ => pyRepr v

/-- Python `str` of a value that may be `None` (an absent lookup). -/
def optPyStr (v : Option JsonVal) : String :=
  match v with
  | none => "None"
  | some x => pyStr x

/-- Python `x == True` on a parsed-JSON value: `bool` is an `int`
subclass, so the integer `1` also compares equal to `True`. -/
def pyEqTrue (v : JsonVal) : Bool :=
  match v with
  | JsonVal.bool b => b
  | JsonVal.int n => n = 1
  | _ => false

/-- Python `x == True` where `x` came from `dict.get` (may be `None`). -/
def pyEqTrueOpt (v : Option JsonVal) : Bool :=
  match v with
  | some x => pyEqTrue x
  | none => false

/-! ## Vehicle Command Client (`src/tesla_client.py`) -/

/-- An HTTP response as seen by the client: status code plus the parsed
JSON object body that `response.json()` yields. -/
structure HttpResp where
  status_code : Nat
  body : List (String × JsonVal)

/-- One iteration's online check in `wake_vehicle` (lines 62-66 of
`tesla_client.py`): `response.status_code == 200`, then
`'response' in data and data['response'].get('state') == 'online'`;
`.get` on a non-dict `data['response']` raises `AttributeError`. -/
def pollOnline (r : HttpResp) : Except PyExc Bool :=
  if r.status_code = 200 then
    match fieldsLookup "response" r.body with
    | some (JsonVal.obj rf) =>
      Except.ok (match fieldsLookup "state" rf with
                 | some (JsonVal.str s) => s = "online"
                 | _ => false)
    | some _ => Except.error ⟨"AttributeError: value has no attribute get"⟩
    | none => Except.ok false
  else
    Except.ok false

/-- The message of the exception `wake_vehicle` raises on timeout. -/
def wakeTimeoutMsg : String := "Failed to wake vehicle after maximum attempts"

/-- Observables of one `wake_vehicle` run: its outcome, how many
`vehicle_data` polls were issued, and the total seconds slept. -/
structure WakeRun where
  outcome : Except PyExc Bool
  pollCount : Nat
  sleepSeconds : Nat

/-- The `while attempts < max_attempts` polling loop of `wake_vehicle`
(lines 55-73 of `tesla_client.py`). `polls i` is the transport result of
the `i`-th `vehicle_data` GET; `fuel` is `max_attempts - attempts`.
The code sleeps 5 seconds only when another attempt remains. -/
def wakePollLoop (polls : Nat → Except PyExc HttpResp) : Nat → Nat → WakeRun
  | _, 0 => ⟨Except.error ⟨wakeTimeoutMsg⟩, 0, 0⟩
  | i, fuel + 1 =>
    match polls i with
    | Except.error e => ⟨Except.error e, 1, 0⟩
    | Except.ok r =>
      match pollOnline r with
      | Except.error e => ⟨Except.error e, 1, 0⟩
      | Except.ok true => ⟨Except.ok true, 1, 0⟩
      | Except.ok false =>
        if fuel = 0 then
          ⟨Except.error ⟨wakeTimeoutMsg⟩, 1, 0⟩
        else
          let rest := wakePollLoop polls (i + 1) fuel
          ⟨rest.outcome, rest.pollCount + 1, rest.sleepSeconds + 5⟩

/-- Embedding of `TeslaAPIClient.wake_vehicle`: a `wake_up` POST whose body is
ignored (but whose transport failure propagates), then up to 10 polls
with 5-second sleeps between consecutive attempts. -/
def wake_vehicle (wakePost : Except PyExc Unit) (polls : Nat → Except PyExc HttpResp) : WakeRun :=
  match wakePost with
  | Except.error e => ⟨Except.error e, 0, 0⟩
  | Except.ok _ => wakePollLoop polls 0 10

/-- Embedding of `TeslaAPIClient.get_first_vehicle` (lines 22-28 of
`tesla_client.py`) applied to the transport result of the `/vehicles`
GET: `vehicles['count'] > 0`, then `vehicles['response'][0]['id']`,
else `raise Exception("No vehicles found")`. -/
def get_first_vehicle (veh : Except PyExc JsonVal) : Except PyExc JsonVal :=
  match veh with
  | Except.error e => Except.error e
  | Except.ok vehicles =>
    match pyGetItem vehicles "count" with
    | Except.error e => Except.error e
    | Except.ok cnt =>
      match pyGtZero cnt with
      | Except.error e => Except.error e
      | Except.ok false => Except.error ⟨"No vehicles found"⟩
      | Except.ok true =>
        match pyGetItem vehicles "response" with
        | Except.error e => Except.error e
        | Except.ok resp =>
          match pyIndex resp 0 with
          | Except.error e => Except.error e
          | Except.ok v0 => pyGetItem v0 "id"

/-! ## Navigation request handling (`src/streamlit_app.py`) -/

/-- External collaborators of one `handle_navigation_request` run: the
transport results of the `wake_up` POST, of each `vehicle_data` poll,
and of the `navigation_request` POST (its parsed JSON body). -/
structure Provider where
  wakePost : Except PyExc Unit
  polls : Nat → Except PyExc HttpResp
  navResp : Except PyExc JsonVal

/-- Lines 47-50 of `streamlit_app.py`: interpret the navigation
response. `response.get('response', \x7b\x7d).get('result') == True` decides
success; otherwise the returned dict's error message embeds the full
raw response via the f-string. `.get` on a non-dict raises. -/
def navInterpret (resp : JsonVal) (destination : String) : Except PyExc (List (String × JsonVal)) :=
  match resp with
  | JsonVal.obj fs =>
    match (fieldsLookup "response" fs).getD (JsonVal.obj []) with
    | JsonVal.obj ifs =>
      if pyEqTrueOpt (fieldsLookup "result" ifs) then
        Except.ok [("status", JsonVal.str "success"),
                   ("message", JsonVal.str ("Navigation request sent successfully to: " ++ destination))]
      else
        Except.ok [("error", JsonVal.str ("Navigation request failed: " ++ pyRepr resp))]
    | _ => Except.error ⟨"AttributeError: value has no attribute get"⟩
  | _ => Except.error ⟨"AttributeError: value has no attribute get"⟩

/-- Observables of one `handle_navigation_request` run: the returned
dict, and whether the wake command and the navigation command were
issued to the provider. -/
structure NavOutcome where
  result : List (String × JsonVal)
  wakeIssued : Bool
  navIssued : Bool

/-- The dict `\x7b"error": str(e)\x7d` returned by the `except` handler. -/
def errDict (e : PyExc) : List (String × JsonVal) := [("error", JsonVal.str e.msg)]

/-- Embedding of `handle_navigation_request` (lines 27-53 of `streamlit_app.py`).
The whole body is wrapped in `try/except Exception`, so every raised
`PyExc` becomes an `errDict`. Token fields are read in evaluation
order (`access_token`, `refresh_token`, `vehicle_id`) before waking. -/
def handle_navigation_request (store : Store) (username destination : String) (pr : Provider) : NavOutcome :=
  match fieldsLookup username store with
  | none => ⟨[("error", JsonVal.str "User not authenticated")], false, false⟩
  | some user_data =>
    match pyGetItem user_data "access_token" with
    | Except.error e => ⟨errDict e, false, false⟩
    | Except.ok _ =>
    match pyGetItem user_data "refresh_token" with
    | Except.error e => ⟨errDict e, false, false⟩
    | Except.ok _ =>
    match pyGetItem user_data "vehicle_id" with
    | Except.error e => ⟨errDict e, false, false⟩
    | Except.ok _ =>
      match (wake_vehicle pr.wakePost pr.polls).outcome with
      | Except.error e => ⟨errDict e, true, false⟩
      | Except.ok _ =>
        match pr.navResp with
        | Except.error e => ⟨errDict e, true, true⟩
        | Except.ok resp =>
          match navInterpret resp destination with
          | Except.error e => ⟨errDict e, true, true⟩
          | Except.ok d => ⟨d, true, true⟩

/-! ## OAuth callback handling (`src/streamlit_app.py`) -/

/-- Python truthiness of an optional query-parameter string
(`st.query_params.get` returns the string or `None`). -/
def truthy (o : Option String) : Bool :=
  match o with
  | some s => s ≠ ""
  | none => false

/-- Line 111 of `streamlit_app.py`:
`st.session_state.user_tokens.get('pending_auth', \x7b\x7d).get(st.session_state.username)`.
A non-dict value under `'pending_auth'` would raise `AttributeError`. -/
def expectedStateOf (store : Store) (username : String) : Except PyExc (Option JsonVal) :=
  match fieldsLookup "pending_auth" store with
  | none => Except.ok none
  | some (JsonVal.obj fs) => Except.ok (fieldsLookup username fs)
  | some _ => Except.error ⟨"AttributeError: value has no attribute get"⟩

/-- Python `state != expected_state` where `state` is the received
query-parameter string and `expected_state` is the stored value or
`None`: unequal unless `expected_state` is the identical string. -/
def stateMismatch (st : String) (expected : Option JsonVal) : Bool :=
  match expected with
  | some (JsonVal.str s) => st ≠ s
  | _ => true

/-- Lines 155-156 of `streamlit_app.py`: after a successful exchange,
`if 'pending_auth' in user_tokens and username in user_tokens['pending_auth']:`
`del user_tokens['pending_auth'][username]`. -/
def cleanupPending (store : Store) (username : String) : Except PyExc Store :=
  match fieldsLookup "pending_auth" store with
  | none => Except.ok store
  | some v =>
    match pyContains v username with
    | Except.error e => Except.error e
    | Except.ok false => Except.ok store
    | Except.ok true =>
      match v with
      | JsonVal.obj fs => Except.ok (fieldsInsert "pending_auth" (JsonVal.obj (fieldsErase username fs)) store)
      | _ => Except.error ⟨"TypeError: argument is not a dict"⟩

/-- Observables of one `handle_tesla_callback` run: the boolean return
value, the token store afterwards, whether the token-exchange POST was
issued, and the message passed to `st.error` (if any). -/
structure CallbackOutcome where
  returned : Bool
  store : Store
  exchanged : Bool
  errMsg : Option String

/-- The `st.error` text of the `except` handler at line 168. -/
def authFailMsg (e : PyExc) : Option String := some ("Authentication failed: " ++ e.msg)

/-- Embedding of `handle_tesla_callback` (lines 101-169 of
`streamlit_app.py`). `qpCode` and `qpState` are the `code` and `state`
query parameters; `tok` is the transport result of the token-endpoint
POST (its parsed JSON); `veh` that of the `/vehicles` GET; `nowIso` is
`datetime.now().isoformat()`. The state comparison guards the exchange;
on mismatch the function returns `False` without touching the store.
On success it stores the user record, then deletes the pending entry. -/
def handle_tesla_callback (store : Store) (username : String)
    (qpCode qpState : Option String)
    (tok : Except PyExc JsonVal) (veh : Except PyExc JsonVal)
    (nowIso : String) : CallbackOutcome :=
  match expectedStateOf store username with
  | Except.error e => ⟨false, store, false, authFailMsg e⟩
  | Except.ok expected =>
    if truthy qpCode ∧ truthy qpState then
      let st := qpState.getD ""
      if stateMismatch st expected then
        ⟨false, store, false,
         some ("Invalid state parameter. Got " ++ st ++ ", expected " ++ optPyStr expected)⟩
      else
        match tok with
        | Except.error e => ⟨false, store, true, authFailMsg e⟩
        | Except.ok tokens =>
          match pyGetItem tokens "access_token" with
          | Except.error e => ⟨false, store, true, authFailMsg e⟩
          | Except.ok accessTok =>
            match pyGetItem tokens "refresh_token" with
            | Except.error e => ⟨false, store, true, authFailMsg e⟩
            | Except.ok refreshTok =>
              match get_first_vehicle veh with
              | Except.error e => ⟨false, store, true, authFailMsg e⟩
              | Except.ok vid =>
                let user_data := JsonVal.obj
                  [("access_token", accessTok), ("refresh_token", refreshTok),
                   ("vehicle_id", vid), ("timestamp", JsonVal.str nowIso)]
                let store1 := fieldsInsert username user_data store
                match cleanupPending store1 username with
                | Except.error e => ⟨false, store1, true, authFailMsg e⟩
                | Except.ok store2 => ⟨true, store2, true, none⟩
    else
      ⟨false, store, false, some "Missing code or state in callback"⟩

/-! ## Auth start and disconnect (`src/streamlit_app.py`) -/

/-- Store effect of `start_tesla_auth` (lines 74-77 of
`streamlit_app.py`): ensure a `'pending_auth'` dict exists, then set
`user_tokens['pending_auth'][username] = state`. Subscript assignment
on a non-dict `'pending_auth'` value would raise `TypeError`. -/
def start_tesla_auth_store (store : Store) (username stateTok : String) : Except PyExc Store :=
  match fieldsLookup "pending_auth" store with
  | none => Except.ok (fieldsInsert "pending_auth" (JsonVal.obj [(username, JsonVal.str stateTok)]) store)
  | some (JsonVal.obj fs) =>
    Except.ok (fieldsInsert "pending_auth" (JsonVal.obj (fieldsInsert username (JsonVal.str stateTok) fs)) store)
  | some _ => Except.error ⟨"TypeError: value does not support item assignment"⟩

/-- Store effect of the Disconnect Account branch (lines 213-220 of
`streamlit_app.py`): `if username in user_tokens: del user_tokens[username]`.
The nested `'pending_auth'` dict is not touched. -/
def revokeAuthorization (store : Store) (username : String) : Store :=
  if (fieldsLookup username store).isSome then fieldsErase username store else store

/-- The state a given user's pending authorization holds in a store,
when the `'pending_auth'` slot is a dict holding a string for the user. -/
def pendingStateOf (store : Store) (username : String) : Option String :=
  match fieldsLookup "pending_auth" store with
  | some (JsonVal.obj fs) =>
    match fieldsLookup username fs with
    | some (JsonVal.str s) => some s
    | _ => none
  | _ => none

/-! ## Authorization URL construction (`start_tesla_auth`, lines 68-99)

Strings are handled at the byte level (their UTF-8 bytes), since
`urllib.parse.quote_plus` percent-encodes individual bytes. -/

/-- UTF-8 bytes of an ASCII string literal. -/
def asciiBytes (s : String) : List Nat := s.data.map Char.toNat

/-- Bytes `quote_plus` leaves unescaped: ASCII alphanumerics and
`_`, `.`, `-`, `~` (Python's always-safe set, with empty `safe`). -/
def safeByte (b : Nat) : Bool :=
  (65 ≤ b && b ≤ 90) || (97 ≤ b && b ≤ 122) || (48 ≤ b && b ≤ 57) ||
  b = 95 || b = 46 || b = 45 || b = 126

/-- Uppercase hex digit character code for a nibble. -/
def hexDigitByte (n : Nat) : Nat := if n < 10 then 48 + n else 55 + n

/-- Percent-encoding of a single byte under `quote_plus`: safe bytes
pass through, a space becomes `+` (byte 43), the rest become `%XX`. -/
def quoteByte (b : Nat) : List Nat :=
  if safeByte b then [b]
  else if b = 32 then [43]
  else [37, hexDigitByte (b / 16 % 16), hexDigitByte (b % 16)]

/-- `urllib.parse.quote_plus` over a byte string. -/
def quote_plus_bytes : List Nat → List Nat
  | [] => []
  | b :: rest => quoteByte b ++ quote_plus_bytes rest

/-- Value of a hex digit character code, if it is one. -/
def hexVal (c : Nat) : Option Nat :=
  if 48 ≤ c ∧ c ≤ 57 then some (c - 48)
  else if 65 ≤ c ∧ c ≤ 70 then some (c - 55)
  else if 97 ≤ c ∧ c ≤ 102 then some (c - 87)
  else none

/-- Decoder inverting `quote_plus_bytes` (application/x-www-form-urlencoded). -/
def unquote_plus_bytes : List Nat → Option (List Nat)
  | [] => some []
  | c :: rest =>
    if c = 37 then
      match rest with
      | h :: l :: rest2 =>
        match hexVal h, hexVal l, unquote_plus_bytes rest2 with
        | some hv, some lv, some r => some ((hv * 16 + lv) :: r)
        | _, _, _ => none
      | _ => none
    else if c = 43 then (unquote_plus_bytes rest).map (fun r => 32 :: r)
    else (unquote_plus_bytes rest).map (fun r => c :: r)

/-- Character code of a 6-bit group in the base64url alphabet
(`A-Z`, `a-z`, `0-9`, `-`, `_`). -/
def b64c (n : Nat) : Nat :=
  if n < 26 then 65 + n
  else if n < 52 then 71 + n
  else if n < 62 then n - 4
  else if n = 62 then 45
  else 95

/-- Base64url encoding without padding, as `secrets.token_urlsafe`
produces over the random bytes (`base64.urlsafe_b64encode` with the
trailing `=` stripped). -/
def token_urlsafe_bytes : List Nat → List Nat
  | a :: b :: c :: rest =>
    b64c (a / 4) :: b64c (a % 4 * 16 + b / 16) :: b64c (b % 16 * 4 + c / 64) :: b64c (c % 64) ::
      token_urlsafe_bytes rest
  | [a, b] => [b64c (a / 4), b64c (a % 4 * 16 + b / 16), b64c (b % 16 * 4)]
  | [a] => [b64c (a / 4), b64c (a % 4 * 16)]
  | [] => []

/-- Value of a base64url alphabet character (lenient on others). -/
def b64v (c : Nat) : Nat :=
  if 65 ≤ c ∧ c ≤ 90 then c - 65
  else if 97 ≤ c ∧ c ≤ 122 then c - 71
  else if 48 ≤ c ∧ c ≤ 57 then c + 4
  else if c = 45 then 62
  else 63

/-- Decoder inverting `token_urlsafe_bytes`. -/
def b64urlDecode : List Nat → Option (List Nat)
  | c1 :: c2 :: c3 :: c4 :: rest =>
    (b64urlDecode rest).map (fun r =>
      (b64v c1 * 4 + b64v c2 / 16) :: (b64v c2 % 16 * 16 + b64v c3 / 4) ::
        (b64v c3 % 4 * 64 + b64v c4) :: r)
  | [c1, c2, c3] => some [b64v c1 * 4 + b64v c2 / 16, b64v c2 % 16 * 16 + b64v c3 / 4]
  | [c1, c2] => some [b64v c1 * 4 + b64v c2 / 16]
  | [_] => none
  | [] => some []

/-- The fixed redirect URI of `start_tesla_auth`, as bytes. -/
def redirectUriBytes : List Nat := asciiBytes "https://33sticks-labs.com/auth/callback/"

/-- The fixed scope list of `start_tesla_auth`, as bytes. -/
def scopeBytes : List Nat := asciiBytes "openid offline_access vehicle_device_data vehicle_cmds"

/-- The provider's authorization endpoint, as bytes. -/
def authBaseBytes : List Nat := asciiBytes "https://auth.tesla.com/oauth2/v3/authorize"

/-- The `auth_params` dict of `start_tesla_auth` (lines 81-87), in its
insertion order, with raw (unencoded) values. -/
def teslaAuthParams (clientId stateTok : List Nat) : List (List Nat × List Nat) :=
  [(asciiBytes "client_id", clientId),
   (asciiBytes "redirect_uri", redirectUriBytes),
   (asciiBytes "response_type", asciiBytes "code"),
   (asciiBytes "scope", scopeBytes),
   (asciiBytes "state", stateTok)]

/-- Python `'&'.join` over byte strings. -/
def joinAmp : List (List Nat) → List Nat
  | [] => []
  | [p] => p
  | p :: rest => p ++ 38 :: joinAmp rest

/-- The authorization URL built by lines 89-96 of `streamlit_app.py`:
each parameter's value is passed through `quote_plus` individually,
the `key=value` pairs are joined with `&` and appended to the base
URL after a `?`. -/
def tesla_auth_url (clientId stateTok : List Nat) : List Nat :=
  authBaseBytes ++ 63 :: joinAmp ((teslaAuthParams clientId stateTok).map
    (fun kv => kv.1 ++ 61 :: quote_plus_bytes kv.2))

/-- Everything after the first occurrence of a byte (the `?`). -/
def dropThroughByte (sep : Nat) : List Nat → List Nat
  | [] => []
  | b :: rest => if b = sep then rest else dropThroughByte sep rest

/-- Split a byte string on a separator byte. -/
def splitOnByte (sep : Nat) : List Nat → List (List Nat)
  | [] => [[]]
  | b :: rest =>
    if b = sep then [] :: splitOnByte sep rest
    else
      match splitOnByte sep rest with
      | [] => [[b]]
      | p :: ps => (b :: p) :: ps

/-- Split a `key=value` chunk at its first `=` byte. -/
def splitKV : List Nat → List Nat × List Nat
  | [] => ([], [])
  | b :: rest =>
    if b = 61 then ([], rest)
    else
      let r := splitKV rest
      (b :: r.1, r.2)

/-- An independent reading of a URL's query parameters: take the part
after the `?`, split it on `&`, split each chunk at its first `=`. -/
def parseQuery (url : List Nat) : List (List Nat × List Nat) :=
  (splitOnByte 38 (dropThroughByte 63 url)).map splitKV

/-! ## Store lemmas -/

theorem fieldsLookup_insert_self (k : String) (v : JsonVal) (fs : List (String × JsonVal)) :
    fieldsLookup k (fieldsInsert k v fs) = some v := by
  induction fs with
  | nil => simp [fieldsInsert, fieldsLookup]
  | cons hd tl ih =>
    obtain ⟨k2, v2⟩ := hd
    by_cases h : k2 = k
    · simp [fieldsInsert, fieldsLookup, h]
    · simp [fieldsInsert, fieldsLookup, h, ih]

theorem fieldsLookup_insert_ne (k k2 : String) (v : JsonVal) (fs : List (String × JsonVal))
    (h : k2 ≠ k) : fieldsLookup k (fieldsInsert k2 v fs) = fieldsLookup k fs := by
  induction fs with
  | nil => simp [fieldsInsert, fieldsLookup, h]
  | cons hd tl ih =>
    obtain ⟨k3, v3⟩ := hd
    by_cases h3 : k3 = k2
    · subst h3
      simp [fieldsInsert, fieldsLookup, h]
    · simp only [fieldsInsert, if_neg h3]
      by_cases h4 : k3 = k
      · simp [fieldsLookup, h4]
      · simp [fieldsLookup, h4, ih]

theorem fieldsLookup_erase_self (k : String) (fs : List (String × JsonVal)) :
    fieldsLookup k (fieldsErase k fs) = none := by
  induction fs with
  | nil => simp [fieldsErase, fieldsLookup]
  | cons hd tl ih =>
    obtain ⟨k2, v2⟩ := hd
    by_cases h : k2 = k
    · simp [fieldsErase, fieldsLookup, h, ih]
    · simp [fieldsErase, fieldsLookup, h, ih]

/-! ## Concrete provider fixtures used by witnesses and counterexamples -/

/-- A well-formed token-endpoint response. -/
def tokFx : Except PyExc JsonVal :=
  Except.ok (JsonVal.obj [("access_token", JsonVal.str "AT"), ("refresh_token", JsonVal.str "RT")])

/-- A one-vehicle `/vehicles` response. -/
def vehFx : Except PyExc JsonVal :=
  Except.ok (JsonVal.obj [("count", JsonVal.int 1),
    ("response", JsonVal.arr [JsonVal.obj [("id", JsonVal.str "V1")]])])

/-- A provider whose vehicle is online at once and accepts navigation. -/
def prFx : Provider :=
  ⟨Except.ok (),
   fun _ => Except.ok ⟨200, [("response", JsonVal.obj [("state", JsonVal.str "online")])]⟩,
   Except.ok (JsonVal.obj [("response", JsonVal.obj [("result", JsonVal.bool true)])])⟩

/-! ## C10 -/

theorem navInterpret_shape (resp : JsonVal) (destination : String)
    (d : List (String × JsonVal)) (h : navInterpret resp destination = Except.ok d) :
    (∃ m, fieldsLookup "error" d = some m) ∨
    ((∃ s, fieldsLookup "status" d = some s) ∧ (∃ m, fieldsLookup "message" d = some m)) := by
  unfold navInterpret at h
  split at h
  · split at h
    · split at h
      · right
        cases h
        exact ⟨⟨_, rfl⟩, ⟨_, rfl⟩⟩
      · left
        cases h
        exact ⟨_, rfl⟩
    · cases h
  · cases h

/-- C10: for every input, `handle_navigation_request` returns a dict
holding either an `error` key or both `status` and `message` keys;
every exception raised along the way (wake timeout, transport errors,
malformed records) is converted by the `except` handler into an
`error` entry rather than propagated. -/
theorem C10_result_shape (store : Store) (username destination : String) (pr : Provider) :
    (∃ m, fieldsLookup "error" (handle_navigation_request store username destination pr).result = some m) ∨
    ((∃ s, fieldsLookup "status" (handle_navigation_request store username destination pr).result = some s) ∧
     (∃ m, fieldsLookup "message" (handle_navigation_request store username destination pr).result = some m)) := by
  unfold handle_navigation_request
  split
  · exact Or.inl ⟨_, rfl⟩
  · split
    · exact Or.inl ⟨_, rfl⟩
    · split
      · exact Or.inl ⟨_, rfl⟩
      · split
        · exact Or.inl ⟨_, rfl⟩
        · split
          · exact Or.inl ⟨_, rfl⟩
          · split
            · exact Or.inl ⟨_, rfl⟩
            · split
              · exact Or.inl ⟨_, rfl⟩
              · exact navInterpret_shape _ _ _ (by assumption)

/-! ## C4 -/

theorem handle_navigation_request_absent (store : Store) (username destination : String)
    (pr : Provider) (h : fieldsLookup username store = none) :
    handle_navigation_request store username destination pr =
      ⟨[("error", JsonVal.str "User not authenticated")], false, false⟩ := by
  unfold handle_navigation_request
  rw [h]

/-- C4 (amended): for every userId with no entry under its name in the
token store — which is every userId other than the reserved internal
key `pending_auth` that never completed an authorization —
`handle_navigation_request` returns the `User not authenticated` error
and issues neither a wake nor a navigation command. -/
theorem C4_not_authenticated (store : Store) (username destination : String) (pr : Provider)
    (h : fieldsLookup username store = none) :
    handle_navigation_request store username destination pr =
      ⟨[("error", JsonVal.str "User not authenticated")], false, false⟩ :=
  handle_navigation_request_absent store username destination pr h

theorem C4_witness :
    fieldsLookup "alice" ([] : Store) = none ∧
    handle_navigation_request [] "alice" "Main St" prFx =
      ⟨[("error", JsonVal.str "User not authenticated")], false, false⟩ :=
  ⟨rfl, C4_not_authenticated [] "alice" "Main St" prFx rfl⟩

/-- C4 counterexample: the userId `pending_auth` collides with the key
the code uses to store pending OAuth states inside the same dict.
After any `beginAuthorization` (here: one by `bob`) the key exists, so
`handle_navigation_request("pending_auth", ...)` does not return the
`User not authenticated` error the claim requires — it fails with the
`KeyError` diagnostic `'access_token'` instead (though still without
issuing a wake or navigation command). -/
theorem C4_counterexample :
    (handle_navigation_request [("pending_auth", JsonVal.obj [("bob", JsonVal.str "xyz")])]
        "pending_auth" "Main St" prFx) =
      ⟨[("error", JsonVal.str (pyQuote ++ "access_token" ++ pyQuote))], false, false⟩ ∧
    JsonVal.str (pyQuote ++ "access_token" ++ pyQuote) ≠ JsonVal.str "User not authenticated" := by
  constructor
  · rfl
  · intro h
    have : pyQuote ++ "access_token" ++ pyQuote = "User not authenticated" := by
      injection h
    exact absurd this (by decide)

/-! ## C7 -/

/-- C7 (amended): the Disconnect Account branch removes the
CredentialRecord for the user, is idempotent and error-free when
nothing exists, and an immediately following
`handle_navigation_request` returns the `User not authenticated`
error without issuing commands; however it does not remove a
PendingAuthorization stored under `pending_auth` for that user. -/
theorem C7_revoke (store : Store) (username destination : String) (pr : Provider) :
    fieldsLookup username (revokeAuthorization store username) = none ∧
    revokeAuthorization (revokeAuthorization store username) username = revokeAuthorization store username ∧
    ((fieldsLookup username store).isSome = false → revokeAuthorization store username = store) ∧
    handle_navigation_request (revokeAuthorization store username) username destination pr =
      ⟨[("error", JsonVal.str "User not authenticated")], false, false⟩ := by
  have hstep : ∀ s : Store, fieldsLookup username s = none → revokeAuthorization s username = s := by
    intro s hs
    unfold revokeAuthorization
    simp [hs]
  have hnone : fieldsLookup username (revokeAuthorization store username) = none := by
    unfold revokeAuthorization
    by_cases h : (fieldsLookup username store).isSome
    · simp [h, fieldsLookup_erase_self]
    · simp only [h, if_false]
      exact Option.not_isSome_iff_eq_none.mp (by simp [h])
  refine ⟨hnone, hstep _ hnone, ?_, handle_navigation_request_absent _ _ _ _ hnone⟩
  intro h
  apply hstep
  cases hx : fieldsLookup username store with
  | none => rfl
  | some v => rw [hx] at h; simp at h

theorem C7_witness :
    (fieldsLookup "alice" ([("alice", JsonVal.obj [("access_token", JsonVal.str "AT")])] : Store)).isSome = false ∨
    (fieldsLookup "alice" (revokeAuthorization [("alice", JsonVal.obj [("access_token", JsonVal.str "AT")])] "alice") = none ∧
     handle_navigation_request (revokeAuthorization [("alice", JsonVal.obj [("access_token", JsonVal.str "AT")])] "alice")
       "alice" "Main St" prFx =
       ⟨[("error", JsonVal.str "User not authenticated")], false, false⟩) :=
  Or.inr ⟨(C7_revoke [("alice", JsonVal.obj [("access_token", JsonVal.str "AT")])] "alice" "Main St" prFx).1,
    (C7_revoke [("alice", JsonVal.obj [("access_token", JsonVal.str "AT")])] "alice" "Main St" prFx).2.2.2⟩

/-- C7 counterexample: revoking a user who holds both a
CredentialRecord and a PendingAuthorization deletes only the
credential; the pending state for that user survives, so the claim
that both records are removed is false on the code. -/
theorem C7_counterexample :
    revokeAuthorization
        [("alice", JsonVal.obj [("access_token", JsonVal.str "AT")]),
         ("pending_auth", JsonVal.obj [("alice", JsonVal.str "aaa")])] "alice" =
      [("pending_auth", JsonVal.obj [("alice", JsonVal.str "aaa")])] ∧
    pendingStateOf
        (revokeAuthorization
          [("alice", JsonVal.obj [("access_token", JsonVal.str "AT")]),
           ("pending_auth", JsonVal.obj [("alice", JsonVal.str "aaa")])] "alice") "alice" =
      some "aaa" :=
  ⟨rfl, rfl⟩

/-! ## Callback lemmas -/

theorem pendingStateOf_spec (store : Store) (username s0 : String)
    (h : pendingStateOf store username = some s0) :
    ∃ fs, fieldsLookup "pending_auth" store = some (JsonVal.obj fs) ∧
      fieldsLookup username fs = some (JsonVal.str s0) := by
  unfold pendingStateOf at h
  split at h
  · next fs heq =>
    split at h
    · next s hs =>
      cases h
      exact ⟨fs, heq, hs⟩
    · cases h
  · cases h

theorem start_tesla_auth_pending (store0 store : Store) (username s0 : String)
    (h : start_tesla_auth_store store0 username s0 = Except.ok store) :
    pendingStateOf store username = some s0 := by
  unfold start_tesla_auth_store at h
  split at h
  · cases h
    unfold pendingStateOf
    rw [fieldsLookup_insert_self]
    simp [fieldsLookup]
  · next fs heq =>
    cases h
    unfold pendingStateOf
    simp [fieldsLookup_insert_self]
  · cases h

/-! ## C1 -/

/-- C1 (amended): after the most recent `beginAuthorization` stored
state `s0` for a user, a callback whose received state differs from
`s0` (with any non-empty code) fails with the state-mismatch error,
performs no token exchange, and — contrary to the original claim —
RETAINS the PendingAuthorization record instead of discarding it. -/
theorem C1_state_mismatch (store0 store : Store) (username s0 code st now : String)
    (tok veh : Except PyExc JsonVal)
    (hbegin : start_tesla_auth_store store0 username s0 = Except.ok store ∨
      pendingStateOf store username = some s0)
    (hcode : code ≠ "") (hst : st ≠ "") (hne : st ≠ s0) :
    handle_tesla_callback store username (some code) (some st) tok veh now =
      ⟨false, store, false,
       some ("Invalid state parameter. Got " ++ st ++ ", expected " ++ s0)⟩ ∧
    pendingStateOf (handle_tesla_callback store username (some code) (some st) tok veh now).store
      username = some s0 := by
  have hpend : pendingStateOf store username = some s0 := by
    cases hbegin with
    | inl h => exact start_tesla_auth_pending _ _ _ _ h
    | inr h => exact h
  obtain ⟨fs, hpa, hu⟩ := pendingStateOf_spec _ _ _ hpend
  have hexp : expectedStateOf store username = Except.ok (some (JsonVal.str s0)) := by
    unfold expectedStateOf
    rw [hpa]
    simp [hu]
  have hmain : handle_tesla_callback store username (some code) (some st) tok veh now =
      ⟨false, store, false,
       some ("Invalid state parameter. Got " ++ st ++ ", expected " ++ s0)⟩ := by
    unfold handle_tesla_callback
    rw [hexp]
    simp [truthy, hcode, hst, stateMismatch, hne, optPyStr, pyStr]
  refine ⟨hmain, ?_⟩
  rw [hmain]
  exact hpend

theorem C1_witness :
    ("bbb" : String) ≠ "aaa" ∧
    handle_tesla_callback [("pending_auth", JsonVal.obj [("alice", JsonVal.str "aaa")])] "alice"
        (some "c") (some "bbb") tokFx vehFx "T" =
      ⟨false, [("pending_auth", JsonVal.obj [("alice", JsonVal.str "aaa")])], false,
       some ("Invalid state parameter. Got " ++ "bbb" ++ ", expected " ++ "aaa")⟩ :=
  ⟨by decide,
   (C1_state_mismatch [] [("pending_auth", JsonVal.obj [("alice", JsonVal.str "aaa")])]
      "alice" "aaa" "c" "bbb" "T" tokFx vehFx (Or.inr rfl)
      (by decide) (by decide) (by decide)).1⟩

/-- C1 counterexample: with the pending state `aaa` stored for
`alice`, a callback carrying state `bbb` and a valid code leaves the
PendingAuthorization in place — `pendingStateOf` still answers `aaa`
afterwards — refuting the claim that the pending record is discarded
on a state mismatch. -/
theorem C1_counterexample :
    (handle_tesla_callback [("pending_auth", JsonVal.obj [("alice", JsonVal.str "aaa")])]
        "alice" (some "c") (some "bbb") tokFx vehFx "T").exchanged = false ∧
    pendingStateOf (handle_tesla_callback [("pending_auth", JsonVal.obj [("alice", JsonVal.str "aaa")])]
        "alice" (some "c") (some "bbb") tokFx vehFx "T").store "alice" = some "aaa" :=
  ⟨rfl, rfl⟩

/-! ## C5 -/

/-- C5 (amended): with no stored PendingAuthorization for the user
(`pending_auth` slot absent, or present without an entry for the
user), `completeAuthorization` returns `False` and performs no token
exchange — but it reports this through the very same state-mismatch
error path (`Invalid state parameter. Got ..., expected None`); the
code has no distinct `NoPendingRequest` error. -/
theorem C5_no_pending (store : Store) (username code st now : String)
    (tok veh : Except PyExc JsonVal)
    (hpend : expectedStateOf store username = Except.ok none)
    (hcode : code ≠ "") (hst : st ≠ "") :
    handle_tesla_callback store username (some code) (some st) tok veh now =
      ⟨false, store, false,
       some ("Invalid state parameter. Got " ++ st ++ ", expected " ++ "None")⟩ := by
  unfold handle_tesla_callback
  rw [hpend]
  simp [truthy, hcode, hst, stateMismatch, optPyStr]

theorem C5_witness :
    expectedStateOf [] "alice" = Except.ok none ∧
    handle_tesla_callback [] "alice" (some "c") (some "bbb") tokFx vehFx "T" =
      ⟨false, [], false,
       some ("Invalid state parameter. Got " ++ "bbb" ++ ", expected " ++ "None")⟩ :=
  ⟨rfl, C5_no_pending [] "alice" "c" "bbb" "T" tokFx vehFx rfl (by decide) (by decide)⟩

/-- C5 counterexample: the claim requires a `NoPendingRequest` failure
distinct from `StateMismatch`. On the code, the run with no pending
record produces the same `Invalid state parameter` diagnostic family
as a genuine state mismatch (the first 23 characters coincide), only
interpolating `None` as the expected value — there is no distinct
error kind. -/
theorem C5_counterexample :
    (handle_tesla_callback [] "alice" (some "c") (some "bbb") tokFx vehFx "T").errMsg =
      some "Invalid state parameter. Got bbb, expected None" ∧
    (handle_tesla_callback [("pending_auth", JsonVal.obj [("alice", JsonVal.str "aaa")])]
        "alice" (some "c") (some "bbb") tokFx vehFx "T").errMsg =
      some "Invalid state parameter. Got bbb, expected aaa" ∧
    ("Invalid state parameter. Got bbb, expected None").data.take 23 =
      ("Invalid state parameter. Got bbb, expected aaa").data.take 23 :=
  ⟨rfl, rfl, by decide⟩

/-! ## C8 -/

/-- C8 (amended): when the token exchange yields a transport error or
a payload without `access_token`/`refresh_token`, the callback
returns `False`, persists nothing (the store is unchanged), and the
`except` handler reports the generic diagnostic
`Authentication failed: <str(e)>` — which carries the exception text
(for a malformed payload, the `KeyError` rendering of the missing key),
not the provider's raw error body, and is the same failure shape used
for every other callback error; transport exceptions are caught, not
propagated. -/
theorem C8_token_exchange_failure (store : Store) (username s0 code now : String)
    (veh : Except PyExc JsonVal)
    (hpend : expectedStateOf store username = Except.ok (some (JsonVal.str s0)))
    (hcode : code ≠ "") (hs0 : s0 ≠ "") :
    (∀ e, handle_tesla_callback store username (some code) (some s0) (Except.error e) veh now =
      ⟨false, store, true, authFailMsg e⟩) ∧
    (∀ tokens e, pyGetItem tokens "access_token" = Except.error e →
      handle_tesla_callback store username (some code) (some s0) (Except.ok tokens) veh now =
        ⟨false, store, true, authFailMsg e⟩) ∧
    (∀ tokens a e, pyGetItem tokens "access_token" = Except.ok a →
      pyGetItem tokens "refresh_token" = Except.error e →
      handle_tesla_callback store username (some code) (some s0) (Except.ok tokens) veh now =
        ⟨false, store, true, authFailMsg e⟩) := by
  refine ⟨?_, ?_, ?_⟩
  · intro e
    unfold handle_tesla_callback
    rw [hpend]
    simp [truthy, hcode, hs0, stateMismatch]
  · intro tokens e he
    unfold handle_tesla_callback
    rw [hpend]
    simp [truthy, hcode, hs0, stateMismatch, he]
  · intro tokens a e ha he
    unfold handle_tesla_callback
    rw [hpend]
    simp [truthy, hcode, hs0, stateMismatch, ha, he]

theorem C8_witness :
    handle_tesla_callback [("pending_auth", JsonVal.obj [("alice", JsonVal.str "aaa")])]
        "alice" (some "c") (some "aaa")
        (Except.error ⟨"ConnectionError: connection refused"⟩) vehFx "T" =
      ⟨false, [("pending_auth", JsonVal.obj [("alice", JsonVal.str "aaa")])], true,
       authFailMsg ⟨"ConnectionError: connection refused"⟩⟩ ∧
    handle_tesla_callback [("pending_auth", JsonVal.obj [("alice", JsonVal.str "aaa")])]
        "alice" (some "c") (some "aaa")
        (Except.ok (JsonVal.obj [("error", JsonVal.str "invalid_grant")])) vehFx "T" =
      ⟨false, [("pending_auth", JsonVal.obj [("alice", JsonVal.str "aaa")])], true,
       authFailMsg ⟨pyQuote ++ "access_token" ++ pyQuote⟩⟩ :=
  ⟨(C8_token_exchange_failure [("pending_auth", JsonVal.obj [("alice", JsonVal.str "aaa")])]
      "alice" "aaa" "c" "T" vehFx rfl (by decide) (by decide)).1 _,
   (C8_token_exchange_failure [("pending_auth", JsonVal.obj [("alice", JsonVal.str "aaa")])]
      "alice" "aaa" "c" "T" vehFx rfl (by decide) (by decide)).2.1
      (JsonVal.obj [("error", JsonVal.str "invalid_grant")]) ⟨pyQuote ++ "access_token" ++ pyQuote⟩ rfl⟩

set_option maxRecDepth 8192 in
/-- C8 counterexample: for the provider error body
`\x7b'error': 'invalid_grant'\x7d` the diagnostic is
`Authentication failed: 'access_token'`; neither the raw body's
rendering nor even the substring `invalid_grant` occurs in it, so the
claim that the failure carries the provider's raw error body is false. -/
theorem C8_counterexample :
    (handle_tesla_callback [("pending_auth", JsonVal.obj [("alice", JsonVal.str "aaa")])]
        "alice" (some "c") (some "aaa")
        (Except.ok (JsonVal.obj [("error", JsonVal.str "invalid_grant")])) vehFx "T").errMsg =
      some ("Authentication failed: " ++ pyQuote ++ "access_token" ++ pyQuote) ∧
    ¬ ("invalid_grant".data <:+: ("Authentication failed: " ++ pyQuote ++ "access_token" ++ pyQuote).data) := by
  constructor
  · rfl
  · decide

/-! ## C2 -/

/-- C2 (amended): for an object response whose `response` field is an
object (or is absent, in which case `.get` substitutes the empty
dict), the navigation interpretation returns the success dict exactly
when the `result` field compares equal to Python `True` — which holds
for the boolean `true` AND ALSO for the number `1`, since `bool` is an
`int` subclass — and otherwise returns the `NavigationFailed` dict
whose message embeds the full raw response. -/
theorem C2_sendNavigation (fs ifs : List (String × JsonVal)) (destination : String)
    (hresp : fieldsLookup "response" fs = some (JsonVal.obj ifs) ∨
      (fieldsLookup "response" fs = none ∧ ifs = [])) :
    (navInterpret (JsonVal.obj fs) destination =
        Except.ok [("status", JsonVal.str "success"),
                   ("message", JsonVal.str ("Navigation request sent successfully to: " ++ destination))]
      ↔ pyEqTrueOpt (fieldsLookup "result" ifs) = true) ∧
    (pyEqTrueOpt (fieldsLookup "result" ifs) = false →
      navInterpret (JsonVal.obj fs) destination =
        Except.ok [("error", JsonVal.str ("Navigation request failed: " ++ pyRepr (JsonVal.obj fs)))]) := by
  have hbody : navInterpret (JsonVal.obj fs) destination =
      if pyEqTrueOpt (fieldsLookup "result" ifs) then
        Except.ok [("status", JsonVal.str "success"),
                   ("message", JsonVal.str ("Navigation request sent successfully to: " ++ destination))]
      else
        Except.ok [("error", JsonVal.str ("Navigation request failed: " ++ pyRepr (JsonVal.obj fs)))] := by
    cases hresp with
    | inl h => simp only [navInterpret, h, Option.getD_some]
    | inr h => simp only [navInterpret, h.1, h.2, Option.getD_none]
  rw [hbody]
  by_cases hres : pyEqTrueOpt (fieldsLookup "result" ifs) = true
  · simp [hres]
  · have hfalse : pyEqTrueOpt (fieldsLookup "result" ifs) = false := by
      simpa using hres
    simp [hfalse]

theorem C2_witness :
    (fieldsLookup "response" [("response", JsonVal.obj [("result", JsonVal.bool false)])] =
      some (JsonVal.obj [("result", JsonVal.bool false)])) ∧
    navInterpret (JsonVal.obj [("response", JsonVal.obj [("result", JsonVal.bool false)])]) "Main St" =
      Except.ok [("error", JsonVal.str ("Navigation request failed: " ++
        pyRepr (JsonVal.obj [("response", JsonVal.obj [("result", JsonVal.bool false)])])))] :=
  ⟨rfl, (C2_sendNavigation [("response", JsonVal.obj [("result", JsonVal.bool false)])]
    [("result", JsonVal.bool false)] "Main St" (Or.inl rfl)).2 rfl⟩

/-- C2 counterexample: the response `\x7b"response": \x7b"result": 1\x7d\x7d` has a
`result` that is not the boolean `true`, yet the code reports success,
because Python evaluates `1 == True` as true. This refutes the claim
that every response whose `result` is a non-boolean value yields
`NavigationFailed`. -/
theorem C2_counterexample :
    navInterpret (JsonVal.obj [("response", JsonVal.obj [("result", JsonVal.int 1)])]) "Main St" =
      Except.ok [("status", JsonVal.str "success"),
                 ("message", JsonVal.str "Navigation request sent successfully to: Main St")] ∧
    JsonVal.int 1 ≠ JsonVal.bool true := by
  refine ⟨rfl, ?_⟩
  intro h
  exact JsonVal.noConfusion h

/-! ## C3 -/

theorem wakePollLoop_pollCount_le (polls : Nat → Except PyExc HttpResp) :
    ∀ fuel i, (wakePollLoop polls i fuel).pollCount ≤ fuel := by
  intro fuel
  induction fuel with
  | zero => intro i; simp [wakePollLoop]
  | succ n ih =>
    intro i
    unfold wakePollLoop
    cases hp : polls i with
    | error e => simp
    | ok r =>
      cases hpo : pollOnline r with
      | error e => simp [hpo]
      | ok b =>
        cases b with
        | true => simp [hpo]
        | false =>
          by_cases hn : n = 0
          · simp [hpo, hn]
          · simp only [hpo, if_neg hn]
            exact Nat.succ_le_succ (ih (i + 1))

theorem wakePollLoop_timeout (polls : Nat → Except PyExc HttpResp) :
    ∀ fuel i, 0 < fuel →
      (∀ j, j < fuel → ∃ r, polls (i + j) = Except.ok r ∧ pollOnline r = Except.ok false) →
      wakePollLoop polls i fuel = ⟨Except.error ⟨wakeTimeoutMsg⟩, fuel, 5 * (fuel - 1)⟩ := by
  intro fuel
  induction fuel with
  | zero => intro i h; omega
  | succ n ih =>
    intro i _ h
    obtain ⟨r, hr, ho⟩ := h 0 (by omega)
    rw [Nat.add_zero] at hr
    by_cases hn : n = 0
    · subst hn
      simp [wakePollLoop, hr, ho]
    · have hrec := ih (i + 1) (by omega) (fun j hj => by
        rw [show i + 1 + j = i + (j + 1) by omega]
        exact h (j + 1) (by omega))
      simp only [wakePollLoop, hr, ho, if_neg hn, hrec]
      have h5 : 5 * (n - 1) + 5 = 5 * (n + 1 - 1) := by omega
      simp [h5]

theorem wakePollLoop_online (polls : Nat → Except PyExc HttpResp) :
    ∀ k fuel i, k < fuel →
      (∀ j, j < k → ∃ r, polls (i + j) = Except.ok r ∧ pollOnline r = Except.ok false) →
      (∃ r, polls (i + k) = Except.ok r ∧ pollOnline r = Except.ok true) →
      wakePollLoop polls i fuel = ⟨Except.ok true, k + 1, 5 * k⟩ := by
  intro k
  induction k with
  | zero =>
    intro fuel i hk _ hon
    obtain ⟨r, hr, ho⟩ := hon
    rw [Nat.add_zero] at hr
    cases fuel with
    | zero => omega
    | succ n => simp [wakePollLoop, hr, ho]
  | succ m ih =>
    intro fuel i hk hoff hon
    obtain ⟨r, hr, ho⟩ := hoff 0 (by omega)
    rw [Nat.add_zero] at hr
    cases fuel with
    | zero => omega
    | succ n =>
      have hn : n ≠ 0 := by omega
      have hrec := ih n (i + 1) (by omega)
        (fun j hj => by
          rw [show i + 1 + j = i + (j + 1) by omega]
          exact hoff (j + 1) (by omega))
        (by
          rw [show i + 1 + m = i + (m + 1) by omega]
          exact hon)
      simp only [wakePollLoop, hr, ho, if_neg hn, hrec]
      have h5 : 5 * m + 5 = 5 * (m + 1) := by omega
      simp [h5]

/-- C3: `wake_vehicle` issues at most 10 status polls; if the first
`online` report arrives at poll `k` (zero-based, `k < 10`) it stops
there and returns success after `k + 1` polls and `5 * k` seconds of
sleeping (a fixed 5-second delay between consecutive attempts); if all
10 polls report a non-online state it raises the wake-timeout
exception after exactly 10 polls and 45 seconds of sleeping. -/
theorem C3_wakeAndWait (polls : Nat → Except PyExc HttpResp) (wakePost : Except PyExc Unit) :
    (wake_vehicle wakePost polls).pollCount ≤ 10 ∧
    (∀ k, k < 10 →
      (∀ j, j < k → ∃ r, polls j = Except.ok r ∧ pollOnline r = Except.ok false) →
      (∃ r, polls k = Except.ok r ∧ pollOnline r = Except.ok true) →
      wake_vehicle (Except.ok ()) polls = ⟨Except.ok true, k + 1, 5 * k⟩) ∧
    ((∀ j, j < 10 → ∃ r, polls j = Except.ok r ∧ pollOnline r = Except.ok false) →
      wake_vehicle (Except.ok ()) polls = ⟨Except.error ⟨wakeTimeoutMsg⟩, 10, 45⟩) := by
  refine ⟨?_, ?_, ?_⟩
  · cases wakePost with
    | error e => simp [wake_vehicle]
    | ok u => simpa [wake_vehicle] using wakePollLoop_pollCount_le polls 10 0
  · intro k hk hoff hon
    have := wakePollLoop_online polls k 10 0 hk
      (fun j hj => by simpa using hoff j hj) (by simpa using hon)
    simpa [wake_vehicle] using this
  · intro h
    have := wakePollLoop_timeout polls 10 0 (by omega) (fun j hj => by simpa using h j hj)
    simpa [wake_vehicle] using this

/-- A provider status sequence that reports online on the second poll. -/
def pollsOnlineFx : Nat → Except PyExc HttpResp := fun i =>
  Except.ok ⟨200, [("response", JsonVal.obj
    [("state", JsonVal.str (if i = 1 then "online" else "asleep"))])]⟩

/-- A provider status sequence that never reports online. -/
def pollsAsleepFx : Nat → Except PyExc HttpResp := fun _ =>
  Except.ok ⟨200, [("response", JsonVal.obj [("state", JsonVal.str "asleep")])]⟩

theorem C3_witness :
    wake_vehicle (Except.ok ()) pollsOnlineFx = ⟨Except.ok true, 2, 5⟩ ∧
    wake_vehicle (Except.ok ()) pollsAsleepFx = ⟨Except.error ⟨wakeTimeoutMsg⟩, 10, 45⟩ := by
  constructor
  · have := (C3_wakeAndWait pollsOnlineFx (Except.ok ())).2.1 1 (by omega)
      (fun j hj => by
        interval_cases j
        exact ⟨_, rfl, rfl⟩)
      ⟨_, rfl, rfl⟩
    simpa using this
  · exact (C3_wakeAndWait pollsAsleepFx (Except.ok ())).2.2
      (fun j hj => ⟨_, rfl, rfl⟩)

/-! ## C6 -/

theorem expectedStateOf_obj (store : Store) (username : String) (v : JsonVal)
    (h : expectedStateOf store username = Except.ok (some v)) :
    ∃ pfs, fieldsLookup "pending_auth" store = some (JsonVal.obj pfs) ∧
      fieldsLookup username pfs = some v := by
  unfold expectedStateOf at h
  split at h
  · simp at h
  · next fs heq =>
    refine ⟨fs, heq, ?_⟩
    injection h
  · simp at h

/-- C6: reaching the token exchange with a matching state and a
well-formed token payload, if the provider's vehicle list (whose
`count` field equals the list's length) is empty the callback fails
with the `No vehicles found` exception and the store is unchanged (no
CredentialRecord is persisted); if it is non-empty, the callback
succeeds and the persisted record's `vehicle_id` is exactly the `id`
of the FIRST entry of the list. -/
theorem C6_vehicle_selection (store : Store) (username s0 code now : String)
    (tokens accessTok refreshTok : JsonVal) (vfs : List (String × JsonVal)) (vs : List JsonVal)
    (hpend : expectedStateOf store username = Except.ok (some (JsonVal.str s0)))
    (hcode : code ≠ "") (hs0 : s0 ≠ "")
    (hat : pyGetItem tokens "access_token" = Except.ok accessTok)
    (hrt : pyGetItem tokens "refresh_token" = Except.ok refreshTok)
    (hcount : fieldsLookup "count" vfs = some (JsonVal.int vs.length))
    (hresp : fieldsLookup "response" vfs = some (JsonVal.arr vs)) :
    (vs = [] →
      handle_tesla_callback store username (some code) (some s0) (Except.ok tokens)
        (Except.ok (JsonVal.obj vfs)) now =
        ⟨false, store, true, authFailMsg ⟨"No vehicles found"⟩⟩) ∧
    (∀ v0 rest idv, vs = v0 :: rest → pyGetItem v0 "id" = Except.ok idv →
      ∃ store2,
        handle_tesla_callback store username (some code) (some s0) (Except.ok tokens)
          (Except.ok (JsonVal.obj vfs)) now = ⟨true, store2, true, none⟩ ∧
        fieldsLookup username store2 =
          some (JsonVal.obj [("access_token", accessTok), ("refresh_token", refreshTok),
                             ("vehicle_id", idv), ("timestamp", JsonVal.str now)])) := by
  constructor
  · intro hvs
    subst hvs
    have hgf : get_first_vehicle (Except.ok (JsonVal.obj vfs)) =
        Except.error ⟨"No vehicles found"⟩ := by
      have hcnt : pyGetItem (JsonVal.obj vfs) "count" = Except.ok (JsonVal.int 0) := by
        simpa using (by simp [pyGetItem, hcount] : pyGetItem (JsonVal.obj vfs) "count" =
          Except.ok (JsonVal.int (([] : List JsonVal).length)))
      simp only [get_first_vehicle, hcnt, pyGtZero]
      norm_num
    unfold handle_tesla_callback
    rw [hpend]
    simp [truthy, hcode, hs0, stateMismatch, hat, hrt, hgf]
  · intro v0 rest idv hvs hid
    subst hvs
    have hcnt : pyGetItem (JsonVal.obj vfs) "count" =
        Except.ok (JsonVal.int ((v0 :: rest).length)) := by
      simp [pyGetItem, hcount]
    have hpos : pyGtZero (JsonVal.int ((v0 :: rest).length)) = Except.ok true := by
      simp [pyGtZero]
    have hresp2 : pyGetItem (JsonVal.obj vfs) "response" =
        Except.ok (JsonVal.arr (v0 :: rest)) := by
      simp [pyGetItem, hresp]
    have hidx : pyIndex (JsonVal.arr (v0 :: rest)) 0 = Except.ok v0 := by
      simp [pyIndex]
    have hgf : get_first_vehicle (Except.ok (JsonVal.obj vfs)) = Except.ok idv := by
      simp only [get_first_vehicle, hcnt, hpos, hresp2, hidx, hid]
    obtain ⟨pfs, hpa, hus⟩ := expectedStateOf_obj _ _ _ hpend
    set user_data := JsonVal.obj
      [("access_token", accessTok), ("refresh_token", refreshTok),
       ("vehicle_id", idv), ("timestamp", JsonVal.str now)] with hud
    set store1 := fieldsInsert username user_data store with hs1
    have hlk1 : fieldsLookup username store1 = some user_data := by
      rw [hs1]
      exact fieldsLookup_insert_self _ _ _
    have hclean : ∃ store2, cleanupPending store1 username = Except.ok store2 ∧
        fieldsLookup username store2 = some user_data := by
      by_cases huser : username = "pending_auth"
      · subst huser
        have hpa1 : fieldsLookup "pending_auth" store1 = some user_data := hlk1
        refine ⟨store1, ?_, hlk1⟩
        unfold cleanupPending
        rw [hpa1]
        simp [pyContains, user_data, fieldsLookup]
      · have hpa1 : fieldsLookup "pending_auth" store1 = some (JsonVal.obj pfs) := by
          rw [hs1, fieldsLookup_insert_ne _ _ _ _ huser, hpa]
        by_cases hin : (fieldsLookup username pfs).isSome
        · refine ⟨fieldsInsert "pending_auth" (JsonVal.obj (fieldsErase username pfs)) store1, ?_, ?_⟩
          · unfold cleanupPending
            rw [hpa1]
            simp [pyContains, hin]
          · rw [fieldsLookup_insert_ne _ _ _ _ (Ne.symm huser), hlk1]
        · refine ⟨store1, ?_, hlk1⟩
          unfold cleanupPending
          rw [hpa1]
          simp [pyContains, hin]
    obtain ⟨store2, hcl, hlk2⟩ := hclean
    refine ⟨store2, ?_, hlk2⟩
    unfold handle_tesla_callback
    rw [hpend]
    simp [truthy, hcode, hs0, stateMismatch, hat, hrt, hgf, ← hs1, hcl]

theorem C6_witness :
    (∃ store2,
      handle_tesla_callback [("pending_auth", JsonVal.obj [("alice", JsonVal.str "aaa")])]
          "alice" (some "abc123") (some "aaa")
          (Except.ok (JsonVal.obj [("access_token", JsonVal.str "AT"), ("refresh_token", JsonVal.str "RT")]))
          (Except.ok (JsonVal.obj [("count", JsonVal.int 1),
            ("response", JsonVal.arr [JsonVal.obj [("id", JsonVal.str "V1")]])])) "T" =
        ⟨true, store2, true, none⟩ ∧
      fieldsLookup "alice" store2 =
        some (JsonVal.obj [("access_token", JsonVal.str "AT"), ("refresh_token", JsonVal.str "RT"),
                           ("vehicle_id", JsonVal.str "V1"), ("timestamp", JsonVal.str "T")])) ∧
    handle_tesla_callback [("pending_auth", JsonVal.obj [("alice", JsonVal.str "aaa")])]
        "alice" (some "abc123") (some "aaa")
        (Except.ok (JsonVal.obj [("access_token", JsonVal.str "AT"), ("refresh_token", JsonVal.str "RT")]))
        (Except.ok (JsonVal.obj [("count", JsonVal.int 0), ("response", JsonVal.arr [])])) "T" =
      ⟨false, [("pending_auth", JsonVal.obj [("alice", JsonVal.str "aaa")])], true,
       authFailMsg ⟨"No vehicles found"⟩⟩ :=
  ⟨(C6_vehicle_selection [("pending_auth", JsonVal.obj [("alice", JsonVal.str "aaa")])]
      "alice" "aaa" "abc123" "T"
      (JsonVal.obj [("access_token", JsonVal.str "AT"), ("refresh_token", JsonVal.str "RT")])
      (JsonVal.str "AT") (JsonVal.str "RT")
      [("count", JsonVal.int 1), ("response", JsonVal.arr [JsonVal.obj [("id", JsonVal.str "V1")]])]
      [JsonVal.obj [("id", JsonVal.str "V1")]]
      rfl (by decide) (by decide) rfl rfl rfl rfl).2
      (JsonVal.obj [("id", JsonVal.str "V1")]) [] (JsonVal.str "V1") rfl rfl,
   (C6_vehicle_selection [("pending_auth", JsonVal.obj [("alice", JsonVal.str "aaa")])]
      "alice" "aaa" "abc123" "T"
      (JsonVal.obj [("access_token", JsonVal.str "AT"), ("refresh_token", JsonVal.str "RT")])
      (JsonVal.str "AT") (JsonVal.str "RT")
      [("count", JsonVal.int 0), ("response", JsonVal.arr [])] []
      rfl (by decide) (by decide) rfl rfl rfl rfl).1 rfl⟩

/-! ## C9: percent-encoding lemmas -/

theorem hexVal_hexDigitByte : ∀ n, n < 16 → hexVal (hexDigitByte n) = some n := by
  decide

theorem safeByte_ne_special (b : Nat) (h : safeByte b = true) :
    b ≠ 37 ∧ b ≠ 43 ∧ b ≠ 38 ∧ b ≠ 61 ∧ b ≠ 63 ∧ b ≠ 32 := by
  unfold safeByte at h
  simp only [Bool.or_eq_true, Bool.and_eq_true, decide_eq_true_eq] at h
  omega

theorem unquote_plus_cons (c : Nat) (rest : List Nat) (h37 : c ≠ 37) (h43 : c ≠ 43) :
    unquote_plus_bytes (c :: rest) = (unquote_plus_bytes rest).map (fun r => c :: r) := by
  conv_lhs => rw [unquote_plus_bytes.eq_def]
  simp [h37, h43]

theorem unquote_plus_plus_sign (rest : List Nat) :
    unquote_plus_bytes (43 :: rest) = (unquote_plus_bytes rest).map (fun r => 32 :: r) := by
  conv_lhs => rw [unquote_plus_bytes.eq_def]
  simp

theorem unquote_quoteByte (b : Nat) (hb : b < 256) (rest : List Nat) :
    unquote_plus_bytes (quoteByte b ++ rest) = (unquote_plus_bytes rest).map (fun r => b :: r) := by
  by_cases hs : safeByte b = true
  · obtain ⟨h37, h43, _, _, _, _⟩ := safeByte_ne_special b hs
    simp only [quoteByte, hs, if_true, List.singleton_append]
    exact unquote_plus_cons b rest h37 h43
  · by_cases h32 : b = 32
    · subst h32
      simp only [quoteByte, hs, Bool.false_eq_true, if_false, if_pos rfl, List.singleton_append]
      exact unquote_plus_plus_sign rest
    · have hhi : b / 16 % 16 < 16 := Nat.mod_lt _ (by omega)
      have hlo : b % 16 < 16 := Nat.mod_lt _ (by omega)
      have harith : b / 16 % 16 * 16 + b % 16 = b := by omega
      simp only [quoteByte, hs, Bool.false_eq_true, if_false, h32, List.cons_append,
        List.nil_append]
      conv_lhs => rw [unquote_plus_bytes.eq_def]
      cases hu : unquote_plus_bytes rest with
      | none => simp [hexVal_hexDigitByte _ hhi, hexVal_hexDigitByte _ hlo, hu]
      | some r => simp [hexVal_hexDigitByte _ hhi, hexVal_hexDigitByte _ hlo, hu, harith]

theorem unquote_quote (bs : List Nat) (h : ∀ b ∈ bs, b < 256) :
    unquote_plus_bytes (quote_plus_bytes bs) = some bs := by
  induction bs with
  | nil => rfl
  | cons b rest ih =>
    have hb : b < 256 := h b (by simp)
    have hrest := ih (fun x hx => h x (by simp [hx]))
    simp [quote_plus_bytes, unquote_quoteByte b hb, hrest]

theorem hexDigitByte_no_sep : ∀ n, n < 16 →
    hexDigitByte n ≠ 38 ∧ hexDigitByte n ≠ 61 ∧ hexDigitByte n ≠ 63 := by
  decide

theorem quoteByte_no_sep (b c : Nat) (hc : c ∈ quoteByte b) : c ≠ 38 ∧ c ≠ 61 ∧ c ≠ 63 := by
  unfold quoteByte at hc
  by_cases hs : safeByte b = true
  · simp only [hs, if_true, List.mem_singleton] at hc
    subst hc
    obtain ⟨_, _, h38, h61, h63, _⟩ := safeByte_ne_special _ hs
    exact ⟨h38, h61, h63⟩
  · simp only [hs, Bool.false_eq_true, if_false] at hc
    by_cases h32 : b = 32
    · simp [h32] at hc
      omega
    · simp only [h32, if_false, List.mem_cons, List.mem_singleton] at hc
      have hhi : b / 16 % 16 < 16 := Nat.mod_lt _ (by omega)
      have hlo : b % 16 < 16 := Nat.mod_lt _ (by omega)
      rcases hc with hc | hc | hc
      · omega
      · subst hc
        exact hexDigitByte_no_sep _ hhi
      · simp at hc
        subst hc
        exact hexDigitByte_no_sep _ hlo

theorem quote_plus_no_sep (bs : List Nat) (c : Nat) (hc : c ∈ quote_plus_bytes bs) :
    c ≠ 38 ∧ c ≠ 61 ∧ c ≠ 63 := by
  induction bs with
  | nil => simp [quote_plus_bytes] at hc
  | cons b rest ih =>
    simp only [quote_plus_bytes, List.mem_append] at hc
    rcases hc with hc | hc
    · exact quoteByte_no_sep b c hc
    · exact ih hc

theorem quote_plus_safe_id (bs : List Nat) (h : ∀ b ∈ bs, safeByte b = true) :
    quote_plus_bytes bs = bs := by
  induction bs with
  | nil => rfl
  | cons b rest ih =>
    have hb := h b (by simp)
    simp [quote_plus_bytes, quoteByte, hb, ih (fun x hx => h x (by simp [hx]))]

/-! ## C9: base64url lemmas -/

theorem b64v_b64c : ∀ n, n < 64 → b64v (b64c n) = n := by
  decide

theorem safeByte_b64c (n : Nat) : safeByte (b64c n) = true := by
  unfold b64c safeByte
  split_ifs with h1 h2 h3 h4 <;> simp <;> omega

theorem token_urlsafe_safe (bs : List Nat) :
    ∀ c ∈ token_urlsafe_bytes bs, safeByte c = true := by
  induction bs using token_urlsafe_bytes.induct with
  | case1 a b c rest ih =>
    intro x hx
    simp only [token_urlsafe_bytes, List.mem_cons] at hx
    rcases hx with h | h | h | h | h
    · subst h; exact safeByte_b64c _
    · subst h; exact safeByte_b64c _
    · subst h; exact safeByte_b64c _
    · subst h; exact safeByte_b64c _
    · exact ih x h
  | case2 a b =>
    intro x hx
    simp only [token_urlsafe_bytes, List.mem_cons, List.not_mem_nil, or_false] at hx
    rcases hx with h | h | h <;> (subst h; exact safeByte_b64c _)
  | case3 a =>
    intro x hx
    simp only [token_urlsafe_bytes, List.mem_cons, List.not_mem_nil, or_false] at hx
    rcases hx with h | h <;> (subst h; exact safeByte_b64c _)
  | case4 =>
    intro x hx
    simp [token_urlsafe_bytes] at hx

theorem b64urlDecode_token (bs : List Nat) (h : ∀ b ∈ bs, b < 256) :
    b64urlDecode (token_urlsafe_bytes bs) = some bs := by
  induction bs using token_urlsafe_bytes.induct with
  | case1 a b c rest ih =>
    have ha : a < 256 := h a (by simp)
    have hb : b < 256 := h b (by simp)
    have hc : c < 256 := h c (by simp)
    have hrest := ih (fun x hx => h x (by simp [hx]))
    simp only [token_urlsafe_bytes]
    simp only [b64urlDecode, hrest, Option.map_some']
    rw [b64v_b64c _ (by omega), b64v_b64c _ (by omega), b64v_b64c _ (by omega),
      b64v_b64c _ (by omega)]
    simp only [Option.some.injEq, List.cons.injEq]
    refine ⟨by omega, by omega, by omega, trivial⟩
  | case2 a b =>
    have ha : a < 256 := h a (by simp)
    have hb : b < 256 := h b (by simp)
    simp only [token_urlsafe_bytes]
    simp only [b64urlDecode]
    rw [b64v_b64c _ (by omega), b64v_b64c _ (by omega), b64v_b64c _ (by omega)]
    simp only [Option.some.injEq, List.cons.injEq]
    refine ⟨by omega, by omega, trivial⟩
  | case3 a =>
    have ha : a < 256 := h a (by simp)
    simp only [token_urlsafe_bytes]
    simp only [b64urlDecode]
    rw [b64v_b64c _ (by omega), b64v_b64c _ (by omega)]
    simp only [Option.some.injEq, List.cons.injEq]
    refine ⟨by omega, trivial⟩
  | case4 => rfl

theorem token_urlsafe_inj (n1 n2 : List Nat)
    (h1 : ∀ b ∈ n1, b < 256) (h2 : ∀ b ∈ n2, b < 256)
    (heq : token_urlsafe_bytes n1 = token_urlsafe_bytes n2) : n1 = n2 := by
  have d1 := b64urlDecode_token n1 h1
  rw [heq, b64urlDecode_token n2 h2] at d1
  exact (Option.some_inj.mp d1).symm

/-! ## C9: URL parsing lemmas -/

theorem dropThroughByte_append (sep : Nat) (pre post : List Nat) (h : sep ∉ pre) :
    dropThroughByte sep (pre ++ sep :: post) = post := by
  induction pre with
  | nil => simp [dropThroughByte]
  | cons b rest ih =>
    have hb : ¬(b = sep) := fun hc => h (by simp [hc])
    have hrest : sep ∉ rest := fun hc => h (by simp [hc])
    simp [dropThroughByte, hb, ih hrest]

theorem splitOnByte_no_sep (sep : Nat) (a : List Nat) (h : sep ∉ a) :
    splitOnByte sep a = [a] := by
  induction a with
  | nil => rfl
  | cons b rest ih =>
    have hb : ¬(b = sep) := fun hc => h (by simp [hc])
    have hrest : sep ∉ rest := fun hc => h (by simp [hc])
    simp [splitOnByte, hb, ih hrest]

theorem splitOnByte_append (sep : Nat) (a rest : List Nat) (h : sep ∉ a) :
    splitOnByte sep (a ++ sep :: rest) = a :: splitOnByte sep rest := by
  induction a with
  | nil => simp [splitOnByte]
  | cons b a2 ih =>
    have hb : ¬(b = sep) := fun hc => h (by simp [hc])
    have ha2 : sep ∉ a2 := fun hc => h (by simp [hc])
    simp [splitOnByte, hb, ih ha2]

theorem splitKV_append (key v : List Nat) (h : (61 : Nat) ∉ key) :
    splitKV (key ++ 61 :: v) = (key, v) := by
  induction key with
  | nil => simp [splitKV]
  | cons b k2 ih =>
    have hb : ¬(b = 61) := fun hc => h (by simp [hc])
    have hk2 : (61 : Nat) ∉ k2 := fun hc => h (by simp [hc])
    simp [splitKV, hb, ih hk2]

theorem chunk_no38 (key v : List Nat) (hk : (38 : Nat) ∉ key) :
    (38 : Nat) ∉ key ++ 61 :: quote_plus_bytes v := by
  simp only [List.mem_append, List.mem_cons]
  intro h
  rcases h with h | h | h
  · exact hk h
  · omega
  · exact (quote_plus_no_sep v 38 h).1 rfl

theorem parseQuery_auth_url (clientId stateTok : List Nat) :
    parseQuery (tesla_auth_url clientId stateTok) =
      [(asciiBytes "client_id", quote_plus_bytes clientId),
       (asciiBytes "redirect_uri", quote_plus_bytes redirectUriBytes),
       (asciiBytes "response_type", quote_plus_bytes (asciiBytes "code")),
       (asciiBytes "scope", quote_plus_bytes scopeBytes),
       (asciiBytes "state", quote_plus_bytes stateTok)] := by
  unfold parseQuery tesla_auth_url teslaAuthParams
  simp only [List.map_cons, List.map_nil, joinAmp]
  rw [dropThroughByte_append 63 authBaseBytes _ (by decide)]
  rw [splitOnByte_append 38 _ _ (chunk_no38 _ clientId (by decide))]
  rw [splitOnByte_append 38 _ _ (chunk_no38 _ redirectUriBytes (by decide))]
  rw [splitOnByte_append 38 _ _ (chunk_no38 _ (asciiBytes "code") (by decide))]
  rw [splitOnByte_append 38 _ _ (chunk_no38 _ scopeBytes (by decide))]
  rw [splitOnByte_no_sep 38 _ (chunk_no38 _ stateTok (by decide))]
  simp only [List.map_cons, List.map_nil]
  rw [splitKV_append _ _ (by decide), splitKV_append _ _ (by decide),
    splitKV_append _ _ (by decide), splitKV_append _ _ (by decide),
    splitKV_append _ _ (by decide)]

/-- C9: the authorization URL built by `start_tesla_auth`, read back
by an independent query parser, carries exactly the five parameters
`client_id`, `redirect_uri`, `response_type` (value `code`), `scope`
and `state`, in that order, each value passed through `quote_plus`
exactly once; one `unquote_plus` pass inverts the encoding (so no
value is double-encoded); the state token produced by
`secrets.token_urlsafe` consists solely of URL-safe bytes (hence is
untouched by `quote_plus`), and the base64url encoding is injective
on the underlying random bytes, preserving the full 16 bytes of
entropy the code requests. -/
theorem C9_auth_url :
    (∀ clientId stateTok, parseQuery (tesla_auth_url clientId stateTok) =
      [(asciiBytes "client_id", quote_plus_bytes clientId),
       (asciiBytes "redirect_uri", quote_plus_bytes redirectUriBytes),
       (asciiBytes "response_type", quote_plus_bytes (asciiBytes "code")),
       (asciiBytes "scope", quote_plus_bytes scopeBytes),
       (asciiBytes "state", quote_plus_bytes stateTok)]) ∧
    (∀ bs, (∀ b ∈ bs, b < 256) → unquote_plus_bytes (quote_plus_bytes bs) = some bs) ∧
    (∀ nonce, quote_plus_bytes (token_urlsafe_bytes nonce) = token_urlsafe_bytes nonce) ∧
    (∀ nonce, ∀ c ∈ token_urlsafe_bytes nonce, safeByte c = true) ∧
    (∀ n1 n2, (∀ b ∈ n1, b < 256) → (∀ b ∈ n2, b < 256) →
      token_urlsafe_bytes n1 = token_urlsafe_bytes n2 → n1 = n2) :=
  ⟨parseQuery_auth_url, unquote_quote,
   fun nonce => quote_plus_safe_id _ (token_urlsafe_safe nonce),
   token_urlsafe_safe, token_urlsafe_inj⟩

theorem C9_witness :
    parseQuery (tesla_auth_url (asciiBytes "CID") (asciiBytes "ST")) =
      [(asciiBytes "client_id", quote_plus_bytes (asciiBytes "CID")),
       (asciiBytes "redirect_uri", quote_plus_bytes redirectUriBytes),
       (asciiBytes "response_type", quote_plus_bytes (asciiBytes "code")),
       (asciiBytes "scope", quote_plus_bytes scopeBytes),
       (asciiBytes "state", quote_plus_bytes (asciiBytes "ST"))] ∧
    unquote_plus_bytes (quote_plus_bytes [104, 32, 47, 255]) = some [104, 32, 47, 255] ∧
    quote_plus_bytes (token_urlsafe_bytes [0, 255, 7, 9]) = token_urlsafe_bytes [0, 255, 7, 9] ∧
    ([1, 2, 3] : List Nat) = [1, 2, 3] :=
  ⟨C9_auth_url.1 (asciiBytes "CID") (asciiBytes "ST"),
   C9_auth_url.2.1 [104, 32, 47, 255] (by decide),
   C9_auth_url.2.2.1 [0, 255, 7, 9],
   C9_auth_url.2.2.2.2 [1, 2, 3] [1, 2, 3] (by decide) (by decide) rfl⟩
